import Mathlib

/-!
A verification development for the WhisperT2 transcription-formatting and
export pipeline (`src/transcription/formatter.py`, `src/export/document.py`,
`src/config.py`).

Modelling conventions for the shallow embedding:
* Python floats are modelled as exact rationals (`ℚ`); the
  `timedelta(seconds=s).total_seconds()` round-trip in `format_timestamp`
  is the identity at this level of abstraction.
* Python dicts holding a transcription result are modelled as a structure
  with `Option`-valued fields; `dict.get(key, default)` is `Option.getD`.
* Python strings are modelled as `String`/`List Char`; `str.strip`,
  `str.upper`, `str.replace` (single character), `str.isalnum` are modelled
  on characters (ASCII-faithful).
* Python `int(x)` truncation toward zero is `pyTrunc`; `divmod(a, b)` for a
  positive literal `b` is `(⌊a / b⌋, a - b * ⌊a / b⌋)`, which is exactly
  Python's semantics.
* Byte payloads are `List ℕ`; `str.encode("utf-8")` is `utf8Encode`.
-/

/-- One decimal digit rendered as a character, as Python's decimal
formatting produces it (arguments are always `< 10` at use sites). -/
def digitChar : Nat → Char
  | 0 => '0'
  | 1 => '1'
  | 2 => '2'
  | 3 => '3'
  | 4 => '4'
  | 5 => '5'
  | 6 => '6'
  | 7 => '7'
  | 8 => '8'
  | 9 => '9'
  | _ => '?'

/-- Fuelled decimal rendering: digits of `n`, most significant first.
The fuel only has to dominate the number of digits; `natDigits` passes
`n` itself, which always suffices. -/
def natDigitsGo : Nat → Nat → List Char
  | 0, n => [digitChar (n % 10)]
  | f + 1, n => if n < 10 then [digitChar n] else natDigitsGo f (n / 10) ++ [digitChar (n % 10)]

/-- Decimal digits of a natural number, as produced by Python's `str`/`format`. -/
def natDigits (n : Nat) : List Char := natDigitsGo n n

/-- Zero padding on the left to width `w`, as in Python's `:0wd` format. -/
def padZeros (w : Nat) (ds : List Char) : List Char :=
  List.replicate (w - ds.length) '0' ++ ds

/-- Python `f"{i:0wd}"` for an integer: zero-padded to width `w`, the sign
counting toward the width, digits never truncated. -/
def padInt (w : Nat) (i : Int) : List Char :=
  if i < 0 then '-' :: padZeros (w - 1) (natDigits i.natAbs) else padZeros w (natDigits i.toNat)

/-- Python `str(i)` for an integer. -/
def intDigits (i : Int) : List Char :=
  if i < 0 then '-' :: natDigits i.natAbs else natDigits i.toNat

/-- Python `int(x)` on a float: truncation toward zero. -/
def pyTrunc (q : ℚ) : Int := if q < 0 then -⌊-q⌋ else ⌊q⌋

/-- Python `str.strip()` on the character list: whitespace removed from
both ends. -/
def pyStrip (s : List Char) : List Char :=
  ((s.dropWhile Char.isWhitespace).reverse.dropWhile Char.isWhitespace).reverse

/-- Python `str.replace(a, b)` for single characters. -/
def pyReplaceChar (a b : Char) (s : List Char) : List Char :=
  s.map fun c => if c = a then b else c

/-- Python `str.upper()` (ASCII-faithful model). -/
def pyUpper (s : String) : String := ⟨s.data.map Char.toUpper⟩

/-- Python `sep.join(parts)` at the character level. -/
def joinSep (sep : List Char) : List (List Char) → List Char
  | [] => []
  | [l] => l
  | l :: ls => l ++ sep ++ joinSep sep ls

/-- Python `"\n".join(lines)`. -/
def joinLines (ls : List (List Char)) : List Char := joinSep ['\n'] ls

/-- Fuelled grouping of a reversed digit list into comma-separated groups
of three, for Python's `f"{n:,}"` thousands separator. -/
def commaRevGo : Nat → List Char → List Char
  | 0, ds => ds
  | f + 1, a :: b :: c :: d :: rest => a :: b :: c :: ',' :: commaRevGo f (d :: rest)
  | _ + 1, ds => ds

/-- Python `f"{n:,}"`: decimal rendering with thousands separators. -/
def pyThousands (n : Nat) : String :=
  ⟨(commaRevGo n (natDigits n).reverse).reverse⟩

/-- A word entry of the transcription result: `word_data` in the source,
with keys `word`, `start`, `end` (field `stop` embeds the key `end`,
which is reserved in Lean). The `.get` defaults of the source are applied
at construction. -/
structure Word where
  word : String
  start : ℚ
  stop : ℚ
deriving DecidableEq

/-- A segment of the transcription result, with keys `start`, `end`
(field `stop`) and `text`. -/
structure Segment where
  start : ℚ
  stop : ℚ
  text : String
deriving DecidableEq

/-- The processed transcription data dictionary. Every field the
formatters read may be absent (`none`); `dict.get(key, default)` is
modelled by the accessors below. -/
structure TranscriptionData where
  text : Option String
  segments : Option (List Segment)
  words : Option (List Word)
  duration : Option ℚ
  word_count : Option Nat
  segment_count : Option Nat
  language : Option String
deriving DecidableEq

/-- `transcription_data.get("text", "")`. -/
def getText (td : TranscriptionData) : String := td.text.getD ""

/-- `transcription_data.get("segments", [])`. -/
def getSegments (td : TranscriptionData) : List Segment := td.segments.getD []

/-- `transcription_data.get("words", [])`. -/
def getWords (td : TranscriptionData) : List Word := td.words.getD []

/-- `transcription_data.get("duration", 0)`. -/
def getDuration (td : TranscriptionData) : ℚ := td.duration.getD 0

/-- `transcription_data.get("word_count", 0)`. -/
def getWordCount (td : TranscriptionData) : Nat := td.word_count.getD 0

/-- `transcription_data.get("segment_count", 0)`. -/
def getSegmentCount (td : TranscriptionData) : Nat := td.segment_count.getD 0

/-- `transcription_data.get("language", "unknown")`. -/
def getLanguage (td : TranscriptionData) : String := td.language.getD "unknown"

/-- `TranscriptionFormatter.format_timestamp` (formatter.py:14-29), at the
character level.  `divmod(total, 3600)` is `(⌊total/3600⌋, total - 3600*⌊total/3600⌋)`;
the quotients are integral floats, so `int()` on them is exact; `seconds % 1`
is `secs - ⌊secs⌋`; `int(...)` on the scaled fraction is `pyTrunc`. -/
def format_timestamp_chars (q : ℚ) : List Char :=
  let hours : ℤ := ⌊q / 3600⌋
  let remainder : ℚ := q - 3600 * hours
  let minutes : ℤ := ⌊remainder / 60⌋
  let secs : ℚ := remainder - 60 * minutes
  let ms : ℤ := pyTrunc ((secs - ⌊secs⌋) * 1000)
  padInt 2 hours ++ ':' :: (padInt 2 minutes ++ ':' :: (padInt 2 (pyTrunc secs) ++ '.' :: padInt 3 ms))

/-- `TranscriptionFormatter.format_timestamp` as a string. -/
def format_timestamp (q : ℚ) : String := ⟨format_timestamp_chars q⟩

/-- `TranscriptionFormatter.format_plain_text` (formatter.py:31-41). -/
def format_plain_text (td : TranscriptionData) : String := ⟨pyStrip (getText td).data⟩

/-- The rendered entry `f'"{word}" [{start_ts}-{end_ts}]'` of one word
(formatter.py:72-81), for a word whose stripped text is non-empty. -/
def wordEntry (w : Word) : List Char :=
  '"' :: pyStrip w.word.data ++ '"' :: ' ' :: '[' :: format_timestamp_chars w.start
    ++ '-' :: format_timestamp_chars w.stop ++ [']']

/-- The `word_entries` list built from one line group: words with empty
stripped text are skipped (formatter.py:70-81). -/
def wtEntries (ws : List Word) : List (List Char) :=
  ws.filterMap fun w => if pyStrip w.word.data = [] then none else some (wordEntry w)

/-- The slicing loop `for i in range(0, len(words), 8)` of
`format_word_timestamps` (formatter.py:65-85): each iteration takes the
slice `words[i:i+8]`, renders its non-empty words, and appends the joined
line plus a blank line when any entry was produced.  Fuelled; the caller
passes `len(words)`, which dominates the iteration count. -/
def wtLinesGo : Nat → List Word → List (List Char)
  | 0, _ => []
  | _ + 1, [] => []
  | f + 1, ws =>
    let entries := wtEntries (ws.take 8)
    (if entries = [] then [] else [joinSep [' ', '|', ' '] entries, []]) ++ wtLinesGo f (ws.drop 8)

/-- `TranscriptionFormatter.format_word_timestamps` (formatter.py:43-87). -/
def format_word_timestamps (td : TranscriptionData) : String :=
  let words := getWords td
  if words = [] then "No word-level timestamps available."
  else
    ⟨joinLines ("WORD-LEVEL TIMESTAMPS".data
      :: List.replicate 50 '='
      :: "Each word shown with individual timestamps".data
      :: []
      :: wtLinesGo words.length words)⟩

/-- Python `f"{i:03d}"` for the (always non-negative) enumerate index. -/
def padNat3 (i : Nat) : List Char := padZeros 3 (natDigits i)

/-- The segment loop of `format_segment_timestamps` (formatter.py:109-123):
`for i, segment in enumerate(segments, 1)`, skipping segments whose
stripped text is empty; each emitted block is four lines. -/
def stLinesGo : Nat → List Segment → List (List Char)
  | _, [] => []
  | i, seg :: rest =>
    let text := pyStrip seg.text.data
    if text = [] then stLinesGo (i + 1) rest
    else
      ("Segment ".data ++ padNat3 i)
        :: ("Time: ".data ++ format_timestamp_chars seg.start ++ " --> ".data
              ++ format_timestamp_chars seg.stop)
        :: ("Text: ".data ++ text)
        :: List.replicate 40 '-'
        :: stLinesGo (i + 1) rest

/-- `TranscriptionFormatter.format_segment_timestamps` (formatter.py:89-125). -/
def format_segment_timestamps (td : TranscriptionData) : String :=
  let segments := getSegments td
  if segments = [] then "No segment-level timestamps available."
  else
    ⟨joinLines ("SEGMENT-LEVEL TIMESTAMPS".data
      :: List.replicate 50 '='
      :: []
      :: stLinesGo 1 segments)⟩

/-- The SRT comma-decimal timestamp:
`format_timestamp(x).replace('.', ',')` (formatter.py:153-154). -/
def srt_timestamp_chars (q : ℚ) : List Char :=
  pyReplaceChar '.' ',' (format_timestamp_chars q)

/-- The segment loop of `format_srt_subtitles` (formatter.py:144-159):
`for i, segment in enumerate(segments, 1)`, skipping empty-text segments;
each emitted block is `str(i)`, the comma-decimal time range, the text and
a blank line. -/
def srtLinesGo : Nat → List Segment → List (List Char)
  | _, [] => []
  | i, seg :: rest =>
    let text := pyStrip seg.text.data
    if text = [] then srtLinesGo (i + 1) rest
    else
      natDigits i
        :: (srt_timestamp_chars seg.start ++ " --> ".data ++ srt_timestamp_chars seg.stop)
        :: text
        :: []
        :: srtLinesGo (i + 1) rest

/-- `TranscriptionFormatter.format_srt_subtitles` (formatter.py:127-161). -/
def format_srt_subtitles (td : TranscriptionData) : String :=
  let segments := getSegments td
  if segments = [] then "No segments available for SRT format."
  else ⟨joinLines (srtLinesGo 1 segments)⟩

/-- The segment loop of `format_vtt_subtitles` (formatter.py:180-193). -/
def vttLinesGo : List Segment → List (List Char)
  | [] => []
  | seg :: rest =>
    let text := pyStrip seg.text.data
    if text = [] then vttLinesGo rest
    else
      (format_timestamp_chars seg.start ++ " --> ".data ++ format_timestamp_chars seg.stop)
        :: text
        :: []
        :: vttLinesGo rest

/-- `TranscriptionFormatter.format_vtt_subtitles` (formatter.py:163-195). -/
def format_vtt_subtitles (td : TranscriptionData) : String :=
  let segments := getSegments td
  if segments = [] then "No segments available for VTT format."
  else ⟨joinLines ("WEBVTT".data :: [] :: vttLinesGo segments)⟩

/-- `TranscriptionFormatter.get_transcription_summary` (formatter.py:197-223).
Python dicts preserve insertion order, so the returned dict is modelled as
an association list in construction order. -/
def get_transcription_summary (td : TranscriptionData) : List (String × String) :=
  let duration := getDuration td
  let word_count := getWordCount td
  let segment_count := getSegmentCount td
  let language := getLanguage td
  let wpm : ℤ := if 0 < duration then pyTrunc ((word_count : ℚ) / (duration / 60)) else 0
  [("Duration", format_timestamp duration),
   ("Word Count", pyThousands word_count),
   ("Segments", ⟨natDigits segment_count⟩),
   ("Language", pyUpper language),
   ("Words per Minute", ⟨intDigits wpm⟩),
   ("Characters", pyThousands (getText td).length)]

/-- `config.DEFAULT_FILENAME_PREFIX` (config.py:41). -/
def default_filename_base : String := "transcription"

/-- `DocumentExporter.get_filename` (document.py:213-232): fall back to the
configured default when `base_name` is falsy, keep only alphanumerics,
spaces, hyphens and underscores, replace spaces with underscores, then
assemble `f"{clean_name}_{format_type}.{file_format}"`. -/
def get_filename (base_name format_type file_format : String) : String :=
  let base := if base_name.data = [] then default_filename_base else base_name
  let kept := base.data.filter fun c => c.isAlphanum || c == ' ' || c == '-' || c == '_'
  let clean := pyReplaceChar ' ' '_' kept
  ⟨clean ++ '_' :: format_type.data ++ '.' :: file_format.data⟩

/-- UTF-8 encoding of one Unicode scalar value, as Python's
`str.encode("utf-8")` produces it. -/
def utf8EncodeChar (c : Char) : List Nat :=
  let n := c.toNat
  if n < 128 then [n]
  else if n < 2048 then [192 + n / 64, 128 + n % 64]
  else if n < 65536 then [224 + n / 4096, 128 + n / 64 % 64, 128 + n % 64]
  else [240 + n / 262144, 128 + n / 4096 % 64, 128 + n / 64 % 64, 128 + n % 64]

/-- Python `s.encode("utf-8")` as a byte list. -/
def utf8Encode (s : String) : List Nat := (s.data.map utf8EncodeChar).flatten

/-- Outcome of assembling and saving the DOCX document
(document.py:50-74).  The assembly is performed by the external
`python-docx` library, so it is modelled as an explicit outcome: either a
complete byte payload or a raised exception with its message. -/
inductive DocxOutcome where
  | ok (payload : List Nat)
  | throws (msg : String)

/-- `DocumentExporter.create_docx_download` (document.py:37-78): returns
the assembled bytes, or reports the error (via `st.error`, modelled as the
returned message list) and returns `None`.  The first component is the
return value, the second the list of reported error messages. -/
def create_docx_download (outcome : DocxOutcome) : Option (List Nat) × List String :=
  match outcome with
  | .ok payload => (some payload, [])
  | .throws msg => (none, ["Error creating DOCX document: " ++ msg])

/-- `DocumentExporter.create_subtitle_download` (document.py:234-258):
renders the chosen subtitle format and returns its complete UTF-8
encoding, or `None` for an unknown format.  The renderers are total, so
the `except` branch is unreachable in the model. -/
def create_subtitle_download (td : TranscriptionData) (subtitle_format : String) :
    Option (List Nat) :=
  if subtitle_format = "srt" then some (utf8Encode (format_srt_subtitles td))
  else if subtitle_format = "vtt" then some (utf8Encode (format_vtt_subtitles td))
  else none

/-! ### Specification-side definitions.  Each follows the spec's (or the
claim's) wording, to be compared with the implementation-side definitions
above. -/

/-- The timestamp contract as the spec states it: with `T = ⌊q⌋` total
whole seconds, the fields are `T / 3600` hours, `T % 3600 / 60` minutes,
`T % 60` seconds and `⌊fract q * 1000⌋` milliseconds, each zero-padded
(hours widening beyond two digits, never wrapping). -/
def timestamp_spec_chars (q : ℚ) : List Char :=
  padInt 2 (⌊q⌋ / 3600) ++ ':' :: (padInt 2 (⌊q⌋ % 3600 / 60)
    ++ ':' :: (padInt 2 (⌊q⌋ % 60) ++ '.' :: padInt 3 ⌊Int.fract q * 1000⌋))

/-- String form of `timestamp_spec_chars`. -/
def timestamp_spec (q : ℚ) : String := ⟨timestamp_spec_chars q⟩

/-- One SRT block for an enumerated segment: sequence number line, comma
decimal time-range line, text line, blank line. -/
def srt_block (p : Nat × Segment) : List (List Char) :=
  [natDigits p.1,
   srt_timestamp_chars p.2.start ++ " --> ".data ++ srt_timestamp_chars p.2.stop,
   pyStrip p.2.text.data,
   []]

/-- Spec-side SRT rendering with positional sequence numbers (the amended
C1 policy): segments are enumerated from 1 over the full list, empty-text
segments are dropped after enumeration, and each survivor contributes one
block carrying its original position. -/
def srt_spec_positional (td : TranscriptionData) : String :=
  let segments := getSegments td
  if segments = [] then "No segments available for SRT format."
  else
    ⟨joinLines ((((List.enumFrom 1 segments).filter
        fun p => !(pyStrip p.2.text.data).isEmpty).map srt_block).flatten)⟩

/-- Claim-side SRT loop with sequence numbers counted over emitted blocks
only (skipped segments do not consume a number), following the claim's
wording. -/
def srt_claim_go : Nat → List Segment → List (List Char)
  | _, [] => []
  | n, seg :: rest =>
    let text := pyStrip seg.text.data
    if text = [] then srt_claim_go n rest
    else
      natDigits n
        :: (srt_timestamp_chars seg.start ++ " --> ".data ++ srt_timestamp_chars seg.stop)
        :: text
        :: []
        :: srt_claim_go (n + 1) rest

/-- Claim-side SRT rendering with emitted-blocks-only numbering. -/
def srt_emitted_numbering (td : TranscriptionData) : String :=
  let segments := getSegments td
  if segments = [] then "No segments available for SRT format."
  else ⟨joinLines (srt_claim_go 1 segments)⟩

/-- Spec-side one-pass sanitization from the claim's wording: keep
alphanumerics, hyphens and underscores, turn spaces into underscores,
drop everything else. -/
def sanitize_spec (b : String) : List Char :=
  b.data.filterMap fun c =>
    if c.isAlphanum || c == '-' || c == '_' then some c
    else if c == ' ' then some '_' else none

/-- Amended-claim filename function: the configured default base is used
exactly when `base_name` is originally empty; a base that merely
sanitizes to empty stays empty. -/
def get_filename_spec (base_name format_type file_format : String) : String :=
  ⟨(if base_name.data = [] then "transcription".data else sanitize_spec base_name)
    ++ '_' :: format_type.data ++ '.' :: file_format.data⟩

/-- Original-claim filename function: the default base is used whenever
the sanitized base is empty (which covers an originally empty base). -/
def get_filename_claim (base_name format_type file_format : String) : String :=
  ⟨(if sanitize_spec base_name = [] then "transcription".data else sanitize_spec base_name)
    ++ '_' :: format_type.data ++ '.' :: file_format.data⟩

/-- Spec-side partition of the word list into groups of 8 consecutive
words (last group may be shorter).  Fuelled like the loop it mirrors. -/
def chunksOf8Go : Nat → List Word → List (List Word)
  | 0, _ => []
  | _ + 1, [] => []
  | f + 1, ws => ws.take 8 :: chunksOf8Go f (ws.drop 8)

/-- The rendered line of each group with at least one non-empty word:
entries joined by `" | "`; groups whose words are all empty vanish. -/
def word_group_lines (words : List Word) : List (List Char) :=
  (chunksOf8Go words.length words).filterMap fun g =>
    let es := wtEntries g
    if es = [] then none else some (joinSep [' ', '|', ' '] es)

/-- Claim-side word-timestamp rendering: a TWO-line banner (title and
separator rule) directly followed by the group lines joined with blank
lines, as the claim words it. -/
def word_timestamps_two_line_banner (td : TranscriptionData) : String :=
  let words := getWords td
  if words = [] then "No word-level timestamps available."
  else
    ⟨joinLines ("WORD-LEVEL TIMESTAMPS".data
      :: List.replicate 50 '='
      :: List.intersperse [] (word_group_lines words))⟩

/-- Amended-claim word-timestamp rendering: a four-line banner (title,
separator rule, explanatory line, blank line), then each group line
followed by a blank line. -/
def word_timestamps_spec (td : TranscriptionData) : String :=
  let words := getWords td
  if words = [] then "No word-level timestamps available."
  else
    ⟨joinLines ("WORD-LEVEL TIMESTAMPS".data
      :: List.replicate 50 '='
      :: "Each word shown with individual timestamps".data
      :: []
      :: ((word_group_lines words).map fun l => [l, []]).flatten)⟩

/-- One spec-side segment-timestamp block for an enumerated segment:
sequence header, time range, text line, rule separator. -/
def segment_block (p : Nat × Segment) : List (List Char) :=
  [("Segment ".data ++ padNat3 p.1),
   ("Time: ".data ++ format_timestamp_chars p.2.start ++ " --> ".data
      ++ format_timestamp_chars p.2.stop),
   ("Text: ".data ++ pyStrip p.2.text.data),
   List.replicate 40 '-']

/-- Spec-side segment-timestamp rendering: header lines, then one 4-line
block per non-empty segment, enumerated from 1 over the full list. -/
def segment_timestamps_spec (td : TranscriptionData) : String :=
  let segments := getSegments td
  if segments = [] then "No segment-level timestamps available."
  else
    ⟨joinLines ("SEGMENT-LEVEL TIMESTAMPS".data
      :: List.replicate 50 '='
      :: []
      :: (((List.enumFrom 1 segments).filter
            fun p => !(pyStrip p.2.text.data).isEmpty).map segment_block).flatten)⟩

/-! ### Floor algebra connecting the divmod chain to the contract. -/

lemma pyTrunc_of_nonneg {q : ℚ} (h : 0 ≤ q) : pyTrunc q = ⌊q⌋ := by
  unfold pyTrunc
  rw [if_neg (not_lt.mpr h)]

lemma int_floor_div_nat (q : ℚ) (n : ℕ) (hn : 0 < n) : ⌊q / (n : ℚ)⌋ = ⌊q⌋ / (n : ℤ) := by
  have hn0 : (0 : ℚ) < (n : ℚ) := by exact_mod_cast hn
  have hz : (0 : ℤ) < (n : ℤ) := by exact_mod_cast hn
  have hmod := Int.emod_nonneg ⌊q⌋ (by omega : (n : ℤ) ≠ 0)
  have hmodlt := Int.emod_lt_of_pos ⌊q⌋ hz
  have hdeq := Int.ediv_add_emod ⌊q⌋ (n : ℤ)
  rw [Int.floor_eq_iff]
  constructor
  · rw [le_div_iff₀ hn0]
    have h1 : ((⌊q⌋ / (n : ℤ)) * (n : ℤ) : ℤ) ≤ ⌊q⌋ := by
      have hx : (⌊q⌋ / (n : ℤ)) * (n : ℤ) = (n : ℤ) * (⌊q⌋ / (n : ℤ)) := mul_comm _ _
      linarith [hdeq, hmod]
    calc ((⌊q⌋ / (n : ℤ) : ℤ) : ℚ) * (n : ℚ) = (((⌊q⌋ / (n : ℤ)) * (n : ℤ) : ℤ) : ℚ) := by
          push_cast
          ring
    _ ≤ (⌊q⌋ : ℚ) := by exact_mod_cast h1
    _ ≤ q := Int.floor_le q
  · rw [div_lt_iff₀ hn0]
    have h1 : q < (⌊q⌋ : ℚ) + 1 := Int.lt_floor_add_one q
    have h2 : (⌊q⌋ : ℤ) + 1 ≤ (⌊q⌋ / (n : ℤ) + 1) * (n : ℤ) := by
      have hx : (⌊q⌋ / (n : ℤ) + 1) * (n : ℤ) = (n : ℤ) * (⌊q⌋ / (n : ℤ)) + (n : ℤ) := by ring
      linarith [hdeq, hmodlt]
    have h3 : ((⌊q⌋ : ℤ) : ℚ) + 1 ≤ ((⌊q⌋ / (n : ℤ) + 1) * (n : ℤ) : ℤ) := by exact_mod_cast h2
    push_cast at h3 ⊢
    linarith

lemma floor_div_lit3600 (q : ℚ) : ⌊q / 3600⌋ = ⌊q⌋ / 3600 := by
  have h := int_floor_div_nat q 3600 (by omega)
  norm_num at h
  exact h

lemma floor_div_lit60 (q : ℚ) : ⌊q / 60⌋ = ⌊q⌋ / 60 := by
  have h := int_floor_div_nat q 60 (by omega)
  norm_num at h
  exact h

/-- The divmod chain of `format_timestamp` computes exactly the
spec-side fields: the implementation and the contract agree on every
input. -/
lemma format_timestamp_chars_eq_spec (q : ℚ) :
    format_timestamp_chars q = timestamp_spec_chars q := by
  simp only [format_timestamp_chars, timestamp_spec_chars]
  set h : ℤ := ⌊q / 3600⌋ with hh
  set r : ℚ := q - 3600 * (h : ℚ) with hr
  set m : ℤ := ⌊r / 60⌋ with hm
  set s : ℚ := r - 60 * (m : ℚ) with hs
  have f1 : h = ⌊q⌋ / 3600 := by rw [hh, floor_div_lit3600]
  have f2 : m = ⌊q⌋ % 3600 / 60 := by
    have hdiv : r / 60 = q / 60 - ((60 * h : ℤ) : ℚ) := by
      rw [hr]
      push_cast
      ring
    rw [hm, hdiv, Int.floor_sub_int, floor_div_lit60, f1]
    omega
  have hsint : s = q - ((3600 * h + 60 * m : ℤ) : ℚ) := by
    rw [hs, hr]
    push_cast
    ring
  have hsfloor : ⌊s⌋ = ⌊q⌋ % 60 := by
    rw [hsint, Int.floor_sub_int, f1, f2]
    omega
  have hsnn : 0 ≤ s := by
    have h1 : ((⌊s⌋ : ℤ) : ℚ) ≤ s := Int.floor_le s
    have h2 : (0 : ℤ) ≤ ⌊s⌋ := by
      rw [hsfloor]
      omega
    have h2q : ((0 : ℤ) : ℚ) ≤ ((⌊s⌋ : ℤ) : ℚ) := by exact_mod_cast h2
    simpa using h2q.trans h1
  have f3 : pyTrunc s = ⌊q⌋ % 60 := by rw [pyTrunc_of_nonneg hsnn, hsfloor]
  have f4 : pyTrunc ((s - (⌊s⌋ : ℚ)) * 1000) = ⌊Int.fract q * 1000⌋ := by
    have hfr : s - (⌊s⌋ : ℚ) = Int.fract q := by
      rw [Int.self_sub_floor, hsint, Int.fract_sub_int]
    rw [hfr]
    have hnn : 0 ≤ Int.fract q * 1000 := by
      have := Int.fract_nonneg q
      linarith
    exact pyTrunc_of_nonneg hnn
  rw [f1, f2, f3, f4]

/-! ### Character and length facts about the rendered digits. -/

lemma digitChar_is_digit (d : Nat) : (digitChar d).val ≥ 48 ∧ (digitChar d).val ≤ 63 := by
  unfold digitChar
  split <;> decide

lemma natDigitsGo_chars (f n : Nat) :
    ∀ c ∈ natDigitsGo f n, ∃ d, c = digitChar d := by
  induction f generalizing n with
  | zero =>
    intro c hc
    simp only [natDigitsGo, List.mem_singleton] at hc
    exact ⟨n % 10, hc⟩
  | succ f ih =>
    intro c hc
    simp only [natDigitsGo] at hc
    by_cases h : n < 10
    · rw [if_pos h] at hc
      simp only [List.mem_singleton] at hc
      exact ⟨n, hc⟩
    · rw [if_neg h] at hc
      rcases List.mem_append.mp hc with h1 | h1
      · exact ih _ _ h1
      · simp only [List.mem_singleton] at h1
        exact ⟨n % 10, h1⟩

lemma natDigits_no_dot (n : Nat) : ∀ c ∈ natDigits n, c ≠ '.' := by
  intro c hc
  obtain ⟨d, rfl⟩ := natDigitsGo_chars n n c hc
  have := digitChar_is_digit d
  intro h
  rw [h] at this
  revert this
  decide

lemma padZeros_no_dot (w : Nat) (ds : List Char) (h : ∀ c ∈ ds, c ≠ '.') :
    ∀ c ∈ padZeros w ds, c ≠ '.' := by
  intro c hc
  rcases List.mem_append.mp hc with h1 | h1
  · rw [List.eq_of_mem_replicate h1]
    decide
  · exact h c h1

lemma padInt_no_dot (w : Nat) (i : Int) : ∀ c ∈ padInt w i, c ≠ '.' := by
  intro c hc
  unfold padInt at hc
  by_cases h : i < 0
  · rw [if_pos h] at hc
    rcases List.mem_cons.mp hc with h1 | h1
    · rw [h1]
      decide
    · exact padZeros_no_dot _ _ (natDigits_no_dot _) c h1
  · rw [if_neg h] at hc
    exact padZeros_no_dot _ _ (natDigits_no_dot _) c hc

lemma natDigitsGo_ne_nil (f n : Nat) : natDigitsGo f n ≠ [] := by
  cases f with
  | zero => simp [natDigitsGo]
  | succ f =>
    simp only [natDigitsGo]
    split
    · simp
    · simp

lemma natDigits_length_pos (n : Nat) : 1 ≤ (natDigits n).length := by
  have := natDigitsGo_ne_nil n n
  unfold natDigits
  cases h : natDigitsGo n n with
  | nil => exact absurd h this
  | cons a l => simp

lemma padZeros_length (w : Nat) (ds : List Char) : (padZeros w ds).length = max w ds.length := by
  simp only [padZeros, List.length_append, List.length_replicate]
  omega

lemma natDigitsGo_length_le (f n k : Nat) (h : n < 10 ^ (k + 1)) :
    (natDigitsGo f n).length ≤ k + 1 := by
  induction f generalizing n k with
  | zero => simp [natDigitsGo]
  | succ f ih =>
    simp only [natDigitsGo]
    by_cases hn : n < 10
    · rw [if_pos hn]
      simp
    · rw [if_neg hn]
      cases k with
      | zero =>
        exfalso
        simp at h
        omega
      | succ k =>
        have hdiv : n / 10 < 10 ^ (k + 1) := by
          rw [Nat.div_lt_iff_lt_mul (by omega)]
          calc n < 10 ^ (k + 1 + 1) := h
          _ = 10 ^ (k + 1) * 10 := by rw [pow_succ]
        have := ih (n / 10) k hdiv
        simp only [List.length_append, List.length_singleton]
        omega

lemma padInt_length_eq (w : Nat) (i : Int) (h0 : 0 ≤ i) (h : i.toNat < 10 ^ w) (hw : 1 ≤ w) :
    (padInt w i).length = w := by
  unfold padInt
  rw [if_neg (by omega)]
  rw [padZeros_length]
  have : (natDigits i.toNat).length ≤ w := by
    obtain ⟨w', rfl⟩ : ∃ w', w = w' + 1 := ⟨w - 1, by omega⟩
    exact natDigitsGo_length_le _ _ _ h
  omega

lemma two_le_padInt_length (i : Int) (h0 : 0 ≤ i) : 2 ≤ (padInt 2 i).length := by
  unfold padInt
  rw [if_neg (by omega), padZeros_length]
  omega

lemma pyReplaceChar_append (a b : Char) (s t : List Char) :
    pyReplaceChar a b (s ++ t) = pyReplaceChar a b s ++ pyReplaceChar a b t := by
  simp [pyReplaceChar]

lemma pyReplaceChar_cons (a b c : Char) (s : List Char) :
    pyReplaceChar a b (c :: s) = (if c = a then b else c) :: pyReplaceChar a b s := by
  simp [pyReplaceChar]

lemma pyReplaceChar_eq_self (a b : Char) (s : List Char) (h : ∀ c ∈ s, c ≠ a) :
    pyReplaceChar a b s = s := by
  unfold pyReplaceChar
  conv_rhs => rw [← List.map_id s]
  apply List.map_congr_left
  intro c hc
  rw [if_neg (h c hc)]
  rfl

/-! ### Concrete evaluations of the timestamp formatter. -/

lemma format_timestamp_chars_eval (q : ℚ) (T M : ℤ) (h1 : ⌊q⌋ = T)
    (h2 : ⌊Int.fract q * 1000⌋ = M) :
    format_timestamp_chars q =
      padInt 2 (T / 3600) ++ ':' :: (padInt 2 (T % 3600 / 60)
        ++ ':' :: (padInt 2 (T % 60) ++ '.' :: padInt 3 M)) := by
  rw [format_timestamp_chars_eq_spec]
  simp only [timestamp_spec_chars, h1, h2]

lemma ts_eval_0 : format_timestamp_chars 0 = "00:00:00.000".data := by
  rw [format_timestamp_chars_eval 0 0 0 (by norm_num) (by simp only [Int.fract]; norm_num)]
  decide

lemma ts_eval_1 : format_timestamp_chars 1 = "00:00:01.000".data := by
  rw [format_timestamp_chars_eval 1 1 0 (by norm_num) (by simp only [Int.fract]; norm_num)]
  decide

lemma ts_eval_2 : format_timestamp_chars 2 = "00:00:02.000".data := by
  rw [format_timestamp_chars_eval 2 2 0 (by norm_num) (by simp only [Int.fract]; norm_num)]
  decide

lemma ts_eval_3half : format_timestamp_chars (3 / 2) = "00:00:01.500".data := by
  rw [format_timestamp_chars_eval (3 / 2) 1 500 (by norm_num) (by simp only [Int.fract]; norm_num)]
  decide

lemma ts_eval_125half : format_timestamp_chars (251 / 2) = "00:02:05.500".data := by
  rw [format_timestamp_chars_eval (251 / 2) 125 500 (by norm_num)
    (by simp only [Int.fract]; norm_num)]
  decide

lemma ts_eval_3661001 : format_timestamp_chars (3661001 / 1000) = "01:01:01.001".data := by
  rw [format_timestamp_chars_eval (3661001 / 1000) 3661 1 (by norm_num)
    (by simp only [Int.fract]; norm_num)]
  decide

lemma ts_eval_360000 : format_timestamp_chars 360000 = "100:00:00.000".data := by
  rw [format_timestamp_chars_eval 360000 360000 0 (by norm_num)
    (by simp only [Int.fract]; norm_num)]
  decide

/-! ### Structural equivalences between the loops and their spec-side
formulations. -/

lemma srt_ts_0 : srt_timestamp_chars 0 = "00:00:00,000".data := by
  rw [srt_timestamp_chars, ts_eval_0]
  decide

lemma srt_ts_1 : srt_timestamp_chars 1 = "00:00:01,000".data := by
  rw [srt_timestamp_chars, ts_eval_1]
  decide

lemma srt_ts_2 : srt_timestamp_chars 2 = "00:00:02,000".data := by
  rw [srt_timestamp_chars, ts_eval_2]
  decide

lemma srtLinesGo_eq_spec (i : Nat) (segs : List Segment) :
    srtLinesGo i segs =
      (((List.enumFrom i segs).filter
          fun p => !(pyStrip p.2.text.data).isEmpty).map srt_block).flatten := by
  induction segs generalizing i with
  | nil => rfl
  | cons seg rest ih =>
    simp only [srtLinesGo, List.enumFrom, List.filter_cons]
    by_cases h : pyStrip seg.text.data = []
    · rw [if_pos h]
      have : (!(pyStrip seg.text.data).isEmpty) = false := by
        rw [h]
        rfl
      rw [this]
      exact ih (i + 1)
    · rw [if_neg h]
      have : (!(pyStrip seg.text.data).isEmpty) = true := by
        cases hs : pyStrip seg.text.data with
        | nil => exact absurd hs h
        | cons a l => rfl
      rw [this]
      simp only [List.map_cons, List.flatten_cons, srt_block]
      rw [ih (i + 1)]
      rfl

lemma stLinesGo_eq_spec (i : Nat) (segs : List Segment) :
    stLinesGo i segs =
      (((List.enumFrom i segs).filter
          fun p => !(pyStrip p.2.text.data).isEmpty).map segment_block).flatten := by
  induction segs generalizing i with
  | nil => rfl
  | cons seg rest ih =>
    simp only [stLinesGo, List.enumFrom, List.filter_cons]
    by_cases h : pyStrip seg.text.data = []
    · rw [if_pos h]
      have : (!(pyStrip seg.text.data).isEmpty) = false := by
        rw [h]
        rfl
      rw [this]
      exact ih (i + 1)
    · rw [if_neg h]
      have : (!(pyStrip seg.text.data).isEmpty) = true := by
        cases hs : pyStrip seg.text.data with
        | nil => exact absurd hs h
        | cons a l => rfl
      rw [this]
      simp only [List.map_cons, List.flatten_cons, segment_block]
      rw [ih (i + 1)]
      rfl

lemma wtLinesGo_eq_spec (f : Nat) (ws : List Word) :
    wtLinesGo f ws =
      (((chunksOf8Go f ws).filterMap fun g =>
          let es := wtEntries g
          if es = [] then none else some (joinSep [' ', '|', ' '] es)).map
        fun l => [l, []]).flatten := by
  induction f generalizing ws with
  | zero => rfl
  | succ f ih =>
    cases ws with
    | nil => rfl
    | cons w rest =>
      by_cases h : wtEntries (w :: rest.take 7) = []
      · simp [wtLinesGo, chunksOf8Go, h, ih]
      · simp [wtLinesGo, chunksOf8Go, h, ih]

lemma sanitize_pointwise (c : Char) :
    (if (c.isAlphanum || c == ' ' || c == '-' || c == '_') = true
      then some (if c = ' ' then '_' else c) else none)
      = (if (c.isAlphanum || c == '-' || c == '_') = true then some c
         else if (c == ' ') = true then some '_' else none) := by
  by_cases h1 : c = ' '
  · subst h1
    decide
  · by_cases h2 : c.isAlphanum <;> by_cases h3 : c = '-' <;> by_cases h4 : c = '_' <;>
      simp [h1, h2, h3, h4]

lemma sanitize_eq_spec (b : String) :
    pyReplaceChar ' ' '_'
        (b.data.filter fun c => c.isAlphanum || c == ' ' || c == '-' || c == '_') =
      sanitize_spec b := by
  unfold sanitize_spec pyReplaceChar
  induction b.data with
  | nil => rfl
  | cons a l ih =>
    simp only [List.filter_cons, List.filterMap_cons]
    by_cases hp : (a.isAlphanum || a == ' ' || a == '-' || a == '_') = true
    · rw [if_pos hp, List.map_cons]
      have hpt := sanitize_pointwise a
      rw [if_pos hp] at hpt
      rw [← hpt]
      exact congrArg _ ih
    · rw [if_neg hp]
      have hpt := sanitize_pointwise a
      rw [if_neg hp] at hpt
      rw [← hpt]
      exact ih

/-! ### String-level evaluations reused by claim theorems. -/

lemma format_timestamp_str_0 : format_timestamp 0 = "00:00:00.000" := by
  rw [format_timestamp, ts_eval_0]

lemma format_timestamp_str_125half : format_timestamp (251 / 2) = "00:02:05.500" := by
  rw [format_timestamp, ts_eval_125half]

lemma format_timestamp_str_360000 : format_timestamp 360000 = "100:00:00.000" := by
  rw [format_timestamp, ts_eval_360000]

lemma format_timestamp_str_3half : format_timestamp (3 / 2) = "00:00:01.500" := by
  rw [format_timestamp, ts_eval_3half]

/-! ### The claims. -/

/-- C3: for every non-negative seconds value, `format_timestamp` renders
`HH:MM:SS.mmm` with two-digit zero-padded minutes and seconds, a
three-digit millisecond field equal to `⌊fract q * 1000⌋`, and an hour
field that widens beyond two digits instead of wrapping; in particular
`format_timestamp 0 = "00:00:00.000"`, `format_timestamp 125.5 =
"00:02:05.500"`, the hour field of `format_timestamp 3661.001` is `"01"`,
and at 100 hours the hour field becomes `"100"`. -/
theorem c3_format_timestamp_contract :
    (∀ q : ℚ, 0 ≤ q →
      format_timestamp q = timestamp_spec q ∧
      ∃ H, format_timestamp_chars q
          = H ++ ':' :: (padInt 2 (⌊q⌋ % 3600 / 60)
              ++ ':' :: (padInt 2 (⌊q⌋ % 60) ++ '.' :: padInt 3 ⌊Int.fract q * 1000⌋))
        ∧ H = padInt 2 (⌊q⌋ / 3600)
        ∧ 2 ≤ H.length
        ∧ (padInt 2 (⌊q⌋ % 3600 / 60)).length = 2
        ∧ (padInt 2 (⌊q⌋ % 60)).length = 2
        ∧ (padInt 3 ⌊Int.fract q * 1000⌋).length = 3) ∧
    format_timestamp 0 = "00:00:00.000" ∧
    format_timestamp (251 / 2) = "00:02:05.500" ∧
    (format_timestamp_chars (3661001 / 1000)).take 2 = ['0', '1'] ∧
    format_timestamp 360000 = "100:00:00.000" := by
  refine ⟨?_, format_timestamp_str_0, format_timestamp_str_125half, ?_,
    format_timestamp_str_360000⟩
  · intro q hq
    have hfl : (0 : ℤ) ≤ ⌊q⌋ := Int.floor_nonneg.mpr hq
    have e1 := Int.emod_nonneg ⌊q⌋ (show (3600 : ℤ) ≠ 0 by norm_num)
    have e2 := Int.emod_lt_of_pos ⌊q⌋ (show (0 : ℤ) < 3600 by norm_num)
    have e3 := Int.emod_nonneg ⌊q⌋ (show (60 : ℤ) ≠ 0 by norm_num)
    have e4 := Int.emod_lt_of_pos ⌊q⌋ (show (0 : ℤ) < 60 by norm_num)
    have hms0 : (0 : ℤ) ≤ ⌊Int.fract q * 1000⌋ :=
      Int.floor_nonneg.mpr (mul_nonneg (Int.fract_nonneg q) (by norm_num))
    have hms1 : ⌊Int.fract q * 1000⌋ < 1000 := by
      rw [Int.floor_lt]
      have := Int.fract_lt_one q
      push_cast
      linarith
    have hpow2 : (10 : ℕ) ^ 2 = 100 := by norm_num
    have hpow3 : (10 : ℕ) ^ 3 = 1000 := by norm_num
    refine ⟨?_, padInt 2 (⌊q⌋ / 3600), ?_, rfl, ?_, ?_, ?_, ?_⟩
    · rw [format_timestamp, timestamp_spec, format_timestamp_chars_eq_spec]
    · rw [format_timestamp_chars_eq_spec]
      rfl
    · exact two_le_padInt_length _ (Int.ediv_nonneg hfl (by norm_num))
    · exact padInt_length_eq 2 _ (Int.ediv_nonneg e1 (by norm_num)) (by omega) (by omega)
    · exact padInt_length_eq 2 _ e3 (by omega) (by omega)
    · exact padInt_length_eq 3 _ hms0 (by omega) (by omega)
  · rw [ts_eval_3661001]
    decide

/-- Witness for C3 at the concrete input `125.5`. -/
theorem c3_witness :
    (0 : ℚ) ≤ 251 / 2 ∧ format_timestamp (251 / 2) = timestamp_spec (251 / 2) := by
  constructor
  · norm_num
  · exact (c3_format_timestamp_contract.1 (251 / 2) (by norm_num)).1

/-- C4: the SRT comma-decimal timestamp is exactly the base
`format_timestamp` output with the dot replaced by a comma as
post-processing, so the comma (SRT) and dot (VTT) renderings share the
same integer `HH:MM:SS` prefix, which contains no dot. -/
theorem c4_srt_comma_postprocessing (q : ℚ) :
    srt_timestamp_chars q = pyReplaceChar '.' ',' (format_timestamp_chars q) ∧
    ∃ front ms3,
      format_timestamp_chars q = front ++ '.' :: ms3 ∧
      srt_timestamp_chars q = front ++ ',' :: ms3 ∧
      (∀ c ∈ front, c ≠ '.') ∧ (∀ c ∈ ms3, c ≠ '.') := by
  refine ⟨rfl, padInt 2 (⌊q⌋ / 3600) ++ ':' :: (padInt 2 (⌊q⌋ % 3600 / 60)
    ++ ':' :: padInt 2 (⌊q⌋ % 60)), padInt 3 ⌊Int.fract q * 1000⌋, ?_, ?_, ?_, ?_⟩
  · rw [format_timestamp_chars_eq_spec]
    simp [timestamp_spec_chars]
  · have hfront : ∀ c ∈ padInt 2 (⌊q⌋ / 3600) ++ ':' :: (padInt 2 (⌊q⌋ % 3600 / 60)
        ++ ':' :: padInt 2 (⌊q⌋ % 60)), c ≠ '.' := by
      intro c hc
      simp only [List.mem_append, List.mem_cons] at hc
      rcases hc with h | h | h | h | h
      · exact padInt_no_dot _ _ c h
      · rw [h]
        decide
      · exact padInt_no_dot _ _ c h
      · rw [h]
        decide
      · exact padInt_no_dot _ _ c h
    rw [srt_timestamp_chars, format_timestamp_chars_eq_spec]
    have hrw : timestamp_spec_chars q = (padInt 2 (⌊q⌋ / 3600) ++ ':' :: (padInt 2 (⌊q⌋ % 3600 / 60)
        ++ ':' :: padInt 2 (⌊q⌋ % 60))) ++ '.' :: padInt 3 ⌊Int.fract q * 1000⌋ := by
      simp [timestamp_spec_chars]
    rw [hrw, pyReplaceChar_append, pyReplaceChar_cons, if_pos rfl,
      pyReplaceChar_eq_self _ _ _ hfront, pyReplaceChar_eq_self _ _ _ (padInt_no_dot _ _)]
  · intro c hc
    simp only [List.mem_append, List.mem_cons] at hc
    rcases hc with h | h | h | h | h
    · exact padInt_no_dot _ _ c h
    · rw [h]
      decide
    · exact padInt_no_dot _ _ c h
    · rw [h]
      decide
    · exact padInt_no_dot _ _ c h
  · exact padInt_no_dot _ _

/-- Witness for C4 at the concrete input `0`. -/
theorem c4_witness :
    srt_timestamp_chars 0 = pyReplaceChar '.' ',' (format_timestamp_chars 0) :=
  (c4_srt_comma_postprocessing 0).1

/-- C6: on an empty (or missing) word list `format_word_timestamps`
returns its fixed sentinel, and on an empty (or missing) segment list the
segment, SRT and VTT renderers each return their fixed sentinel; none of
the four outputs is the empty string and none raises. -/
theorem c6_empty_sentinels (td : TranscriptionData) :
    (getWords td = [] →
      format_word_timestamps td = "No word-level timestamps available." ∧
      format_word_timestamps td ≠ "") ∧
    (getSegments td = [] →
      format_segment_timestamps td = "No segment-level timestamps available." ∧
      format_srt_subtitles td = "No segments available for SRT format." ∧
      format_vtt_subtitles td = "No segments available for VTT format." ∧
      format_segment_timestamps td ≠ "" ∧
      format_srt_subtitles td ≠ "" ∧
      format_vtt_subtitles td ≠ "") := by
  constructor
  · intro h
    have hw : format_word_timestamps td = "No word-level timestamps available." := by
      rw [format_word_timestamps, if_pos h]
    refine ⟨hw, ?_⟩
    rw [hw]
    decide
  · intro h
    have h1 : format_segment_timestamps td = "No segment-level timestamps available." := by
      rw [format_segment_timestamps, if_pos h]
    have h2 : format_srt_subtitles td = "No segments available for SRT format." := by
      rw [format_srt_subtitles, if_pos h]
    have h3 : format_vtt_subtitles td = "No segments available for VTT format." := by
      rw [format_vtt_subtitles, if_pos h]
    refine ⟨h1, h2, h3, ?_, ?_, ?_⟩
    · rw [h1]
      decide
    · rw [h2]
      decide
    · rw [h3]
      decide

/-- Witness for C6 on the all-absent transcription result. -/
theorem c6_witness :
    format_word_timestamps ⟨none, none, none, none, none, none, none⟩ =
        "No word-level timestamps available." ∧
      format_srt_subtitles ⟨none, none, none, none, none, none, none⟩ =
        "No segments available for SRT format." :=
  ⟨((c6_empty_sentinels ⟨none, none, none, none, none, none, none⟩).1 rfl).1,
   ((c6_empty_sentinels ⟨none, none, none, none, none, none, none⟩).2 rfl).2.1⟩

/-- C10: every formatter is total on dictionaries with any subset of
fields missing, reading absent fields through defaults; on the empty
dictionary `format_plain_text` returns `""` and the summary has Duration
`"00:00:00.000"`, Words per Minute `"0"`, and the remaining defaulted
entries; the timestamp renderers return their sentinels. -/
theorem c10_total_with_defaults :
    format_plain_text ⟨none, none, none, none, none, none, none⟩ = "" ∧
    get_transcription_summary ⟨none, none, none, none, none, none, none⟩ =
      [("Duration", "00:00:00.000"), ("Word Count", "0"), ("Segments", "0"),
       ("Language", "UNKNOWN"), ("Words per Minute", "0"), ("Characters", "0")] ∧
    format_word_timestamps ⟨none, none, none, none, none, none, none⟩ =
      "No word-level timestamps available." ∧
    format_segment_timestamps ⟨none, none, none, none, none, none, none⟩ =
      "No segment-level timestamps available." ∧
    format_srt_subtitles ⟨none, none, none, none, none, none, none⟩ =
      "No segments available for SRT format." ∧
    format_vtt_subtitles ⟨none, none, none, none, none, none, none⟩ =
      "No segments available for VTT format." := by
  refine ⟨by decide, ?_, by decide, by decide, by decide, by decide⟩
  simp only [get_transcription_summary, getDuration, getWordCount, getSegmentCount,
    getLanguage, getText, Option.getD_none]
  rw [if_neg (lt_irrefl (0 : ℚ)), format_timestamp_str_0]
  decide

/-- C5: the summary is exactly the six keyed entries in order —
Duration (formatted timestamp), Word Count (thousands-separated),
Segments (integer string), Language (uppercased), Words per Minute
(truncated `word_count / (duration/60)` when `duration > 0`, else `"0"`),
Characters (thousands-separated text length) — and a zero duration never
divides: it yields the entry `"0"`. -/
theorem c5_summary_contract (td : TranscriptionData) :
    get_transcription_summary td =
      [("Duration", format_timestamp (getDuration td)),
       ("Word Count", pyThousands (getWordCount td)),
       ("Segments", ⟨natDigits (getSegmentCount td)⟩),
       ("Language", pyUpper (getLanguage td)),
       ("Words per Minute",
         if 0 < getDuration td
         then ⟨intDigits (pyTrunc ((getWordCount td : ℚ) / (getDuration td / 60)))⟩
         else "0"),
       ("Characters", pyThousands (getText td).length)] ∧
    (get_transcription_summary td).map Prod.fst =
      ["Duration", "Word Count", "Segments", "Language", "Words per Minute", "Characters"] ∧
    (getDuration td = 0 →
      get_transcription_summary td =
        [("Duration", "00:00:00.000"),
         ("Word Count", pyThousands (getWordCount td)),
         ("Segments", ⟨natDigits (getSegmentCount td)⟩),
         ("Language", pyUpper (getLanguage td)),
         ("Words per Minute", "0"),
         ("Characters", pyThousands (getText td).length)]) := by
  refine ⟨?_, ?_, ?_⟩
  · simp only [get_transcription_summary]
    by_cases hd : 0 < getDuration td
    · rw [if_pos hd, if_pos hd]
    · rw [if_neg hd, if_neg hd]
      rfl
  · simp only [get_transcription_summary]
    rfl
  · intro h
    simp only [get_transcription_summary, h]
    rw [if_neg (lt_irrefl (0 : ℚ)), format_timestamp_str_0]
    rfl

/-- Witness for C5 on a concrete result with duration `1.5`, three words
and text `"Hello world test"`. -/
theorem c5_witness :
    get_transcription_summary ⟨some ("Hello world test"), none, none, some (3 / 2), some 3,
        none, some ("en")⟩ =
      [("Duration", "00:00:01.500"), ("Word Count", "3"), ("Segments", "0"),
       ("Language", "EN"), ("Words per Minute", "120"), ("Characters", "16")] := by
  have h := (c5_summary_contract ⟨some ("Hello world test"), none, none, some (3 / 2), some 3,
    none, some ("en")⟩).1
  rw [h]
  simp only [getDuration, getWordCount, getSegmentCount, getLanguage, getText,
    Option.getD_some, Option.getD_none]
  rw [if_pos (by norm_num : (0 : ℚ) < 3 / 2), format_timestamp_str_3half,
    show pyTrunc (((3 : ℕ) : ℚ) / (3 / 2 / 60)) = 120 from by
      unfold pyTrunc
      rw [if_neg (by norm_num)]
      norm_num]
  decide

/-- C2 counterexample: a base name that is non-empty but sanitizes to
empty is NOT replaced by the configured default, contrary to the claim;
`get_filename "!!!" "plain_text" "txt"` is `"_plain_text.txt"`, not
`"transcription_plain_text.txt"`. -/
theorem c2_counterexample :
    get_filename ("!!!") ("plain_text") ("txt") ≠
      get_filename_claim ("!!!") ("plain_text") ("txt") := by
  decide

/-- C2 (amended): the filename function keeps only alphanumerics, spaces,
hyphens and underscores, replaces spaces with underscores, and returns
`<clean_base>_<content_kind>.<file_kind>`; the configured default base is
used exactly when the base name is originally empty (a base that merely
sanitizes to empty yields an empty clean base), and the result is always
non-empty. -/
theorem c2_filename_amended :
    (∀ base_name format_type file_format : String,
      get_filename base_name format_type file_format =
          get_filename_spec base_name format_type file_format ∧
        (get_filename base_name format_type file_format).data ≠ []) ∧
    get_filename ("test file") ("plain_text") ("txt") = "test_file_plain_text.txt" ∧
    get_filename ("") ("plain_text") ("txt") = "transcription_plain_text.txt" := by
  refine ⟨?_, by decide, by decide⟩
  intro b ct fk
  constructor
  · simp only [get_filename, get_filename_spec, default_filename_base]
    by_cases hb : b.data = []
    · rw [if_pos hb, if_pos hb]
      have hid : pyReplaceChar ' ' '_'
          (("transcription" : String).data.filter
            fun c => c.isAlphanum || c == ' ' || c == '-' || c == '_') =
          ("transcription" : String).data := by decide
      rw [hid]
    · rw [if_neg hb, if_neg hb, sanitize_eq_spec b]
  · simp only [get_filename]
    intro h
    rcases List.append_eq_nil.mp h with ⟨h1, h2⟩
    exact List.cons_ne_nil _ _ h2

/-- Witness for C2 at a concrete base name containing a space. -/
theorem c2_witness :
    get_filename ("My Video") ("word_timestamps") ("txt") =
        get_filename_spec ("My Video") ("word_timestamps") ("txt") ∧
      (get_filename ("My Video") ("word_timestamps") ("txt")).data ≠ [] :=
  c2_filename_amended.1 ("My Video") ("word_timestamps") ("txt")

/-- C1 counterexample: with a leading empty-text segment, the first
emitted SRT block carries sequence number 2 (its position in the full
list), not 1 — skipped segments DO consume sequence numbers, so the
rendering differs from emitted-blocks-only numbering. -/
theorem c1_counterexample :
    format_srt_subtitles ⟨none, some [⟨0, 1, ""⟩, ⟨1, 2, "Hello"⟩], none, none, none, none,
        none⟩ ≠
      srt_emitted_numbering ⟨none, some [⟨0, 1, ""⟩, ⟨1, 2, "Hello"⟩], none, none, none, none,
        none⟩ := by
  simp only [format_srt_subtitles, srt_emitted_numbering, getSegments, Option.getD_some,
    srtLinesGo, srt_claim_go, srt_ts_0, srt_ts_1, srt_ts_2]
  decide

/-- C1 (amended): SRT blocks are numbered by the 1-based position of the
segment in the full segment list: segments with empty stripped text are
skipped but still consume a sequence number, so each emitted block
carries its segment's original position rather than its emitted rank. -/
theorem c1_srt_positional (td : TranscriptionData) (h : getSegments td ≠ []) :
    format_srt_subtitles td = srt_spec_positional td := by
  simp only [format_srt_subtitles, srt_spec_positional]
  rw [if_neg h, if_neg h, srtLinesGo_eq_spec]

/-- Witness for C1 on a single-segment result. -/
theorem c1_witness :
    format_srt_subtitles ⟨none, some [⟨0, 1, "Hi"⟩], none, none, none, none, none⟩ =
      srt_spec_positional ⟨none, some [⟨0, 1, "Hi"⟩], none, none, none, none, none⟩ :=
  c1_srt_positional _ (by decide)

/-- C7 counterexample: the banner before the first word group is four
lines (title, separator rule, the explanatory line, and a blank line),
not the two-line banner the claim states. -/
theorem c7_counterexample :
    format_word_timestamps ⟨none, none, some [⟨"Hello", 0, 1⟩], none, none, none, none⟩ ≠
      word_timestamps_two_line_banner ⟨none, none, some [⟨"Hello", 0, 1⟩], none, none, none,
        none⟩ := by
  simp [format_word_timestamps, word_timestamps_two_line_banner, getWords,
    wtLinesGo, chunksOf8Go, word_group_lines, wtEntries, wordEntry, ts_eval_0, ts_eval_1]
  decide

/-- C7 (amended): `format_word_timestamps` partitions the words into
groups of 8 consecutive words, renders each non-empty word of a group as
`"<word>" [<start>-<end>]` joined by `" | "`, emits each group line
followed by a blank line, and prepends a FOUR-line banner (title,
separator rule, the line "Each word shown with individual timestamps",
and a blank line); words with empty stripped text are skipped but still
count toward group boundaries, and groups with no non-empty word emit
nothing. -/
theorem c7_word_grouping_amended (td : TranscriptionData) (h : getWords td ≠ []) :
    format_word_timestamps td = word_timestamps_spec td := by
  simp only [format_word_timestamps, word_timestamps_spec, word_group_lines]
  rw [if_neg h, if_neg h, wtLinesGo_eq_spec]

/-- Witness for C7 on a single-word result. -/
theorem c7_witness :
    format_word_timestamps ⟨none, none, some [⟨"Hi", 0, 1⟩], none, none, none, none⟩ =
      word_timestamps_spec ⟨none, none, some [⟨"Hi", 0, 1⟩], none, none, none, none⟩ :=
  c7_word_grouping_amended _ (by decide)

set_option maxRecDepth 8192 in
/-- C8: `format_segment_timestamps` emits, per segment with non-empty
stripped text and in order, a 4-line block — zero-padded 3-digit
sequence header, `Time: <start> --> <end>` line, text line, rule
separator — and on the single segment `(0, 1.5, "Hello world test")` the
output contains the header "SEGMENT-LEVEL TIMESTAMPS" and the literal
segment text. -/
theorem c8_segment_blocks :
    (∀ td : TranscriptionData, getSegments td ≠ [] →
      format_segment_timestamps td = segment_timestamps_spec td) ∧
    format_segment_timestamps ⟨none, some [⟨0, 3 / 2, "Hello world test"⟩], none, none, none,
        none, none⟩ =
      ("SEGMENT-LEVEL TIMESTAMPS" ++ "\n" ++ (⟨List.replicate 50 '='⟩ : String)
          ++ "\n\nSegment 001\nTime: 00:00:00.000 --> 00:00:01.500\nText: ")
        ++ "Hello world test" ++ ("\n" ++ (⟨List.replicate 40 '-'⟩ : String)) := by
  constructor
  · intro td h
    simp only [format_segment_timestamps, segment_timestamps_spec]
    rw [if_neg h, if_neg h, stLinesGo_eq_spec]
  · simp only [format_segment_timestamps, getSegments, Option.getD_some, stLinesGo,
      ts_eval_0, ts_eval_3half]
    decide

/-- Witness for C8 on a single-segment result. -/
theorem c8_witness :
    format_segment_timestamps ⟨none, some [⟨0, 1, "Hi"⟩], none, none, none, none, none⟩ =
      segment_timestamps_spec ⟨none, some [⟨0, 1, "Hi"⟩], none, none, none, none, none⟩ :=
  c8_segment_blocks.1 _ (by decide)

/-- C9: if DOCX assembly throws, `create_docx_download` reports the error
and returns the absence signal with no partial payload; subtitle export
returns either the complete UTF-8 encoding of the rendered subtitle
string or the absence signal, never a partial payload. -/
theorem c9_all_or_nothing :
    (∀ msg : String, create_docx_download (.throws msg) =
        (none, ["Error creating DOCX document: " ++ msg])) ∧
    (∀ payload : List Nat, create_docx_download (.ok payload) = (some payload, [])) ∧
    (∀ (td : TranscriptionData) (subtitle_format : String),
      create_subtitle_download td subtitle_format = none ∨
      create_subtitle_download td subtitle_format =
          some (utf8Encode (format_srt_subtitles td)) ∨
      create_subtitle_download td subtitle_format =
          some (utf8Encode (format_vtt_subtitles td))) ∧
    (∀ td : TranscriptionData,
      create_subtitle_download td ("srt") = some (utf8Encode (format_srt_subtitles td)) ∧
      create_subtitle_download td ("vtt") = some (utf8Encode (format_vtt_subtitles td))) := by
  refine ⟨fun msg => rfl, fun payload => rfl, ?_, fun td => ⟨rfl, rfl⟩⟩
  intro td fmt
  unfold create_subtitle_download
  by_cases h1 : fmt = "srt"
  · rw [if_pos h1]
    right
    left
    rfl
  · rw [if_neg h1]
    by_cases h2 : fmt = "vtt"
    · rw [if_pos h2]
      right
      right
      rfl
    · rw [if_neg h2]
      left
      rfl

/-- Witness for C9 at a concrete throwing outcome and a concrete SRT
export. -/
theorem c9_witness :
    create_docx_download (.throws ("boom")) =
        (none, ["Error creating DOCX document: " ++ "boom"]) ∧
      create_subtitle_download ⟨none, none, none, none, none, none, none⟩ ("srt") =
        some (utf8Encode (format_srt_subtitles ⟨none, none, none, none, none, none, none⟩)) :=
  ⟨c9_all_or_nothing.1 ("boom"),
   (c9_all_or_nothing.2.2.2 ⟨none, none, none, none, none, none, none⟩).1⟩
